import Mathlib

/-!
Shallow embedding of the MGallow/deepseek-chatbot repository's conversation
session and response-assembly logic, together with theorems settling the
frozen claims about its specification.

Embedded code:
* `src/deepseek_chatbot/app.py` (`main`, chat-submission block, lines 117-187):
  the graphical session orchestration — blank-input guard, user-turn append,
  request materialization, streaming / non-streaming response assembly,
  assistant-turn append.
* `src/deepseek_chatbot/cli.py` (`query_deepseek`, lines 42-60): the CLI
  streaming accumulation loop.
* `src/deepseek_cli.py` (`query_deepseek`, lines 64-111): the legacy utility's
  streaming and non-streaming extraction.
* `src/deepseek_chatbot/core.py` (`get_token_from_env`, line 83): credential
  resolution from the two environment variables.

Python attribute probing (`hasattr`, truthiness, `x or ""`) is modelled with a
three-valued attribute type `PyAttr`: an attribute can be absent from the
object, present with value `None`, or present with a value.
-/

/-- Python attribute slot: absent (so `hasattr` is false), present but `None`,
or present with a value. -/
inductive PyAttr (α : Type) where
  | absent : PyAttr α
  | pynone : PyAttr α
  | val : α → PyAttr α
deriving DecidableEq, Repr

/-- Message roles occurring in `st.session_state.messages`. -/
inductive Role where
  | user : Role
  | assistant : Role
  | system : Role
deriving DecidableEq, Repr

/-- One committed entry of `st.session_state.messages`: a dict with keys
`role` and `content`. `content` is `Option String` because the Python code can
commit `None` as content (non-streaming null-content path). -/
structure Msg where
  role : Role
  content : Option String
deriving DecidableEq, Repr

/-- Wire message built for the API call (`UserMessage` / `AssistantMessage`
from `azure.ai.inference.models`). -/
inductive ApiMessage where
  | userMessage : Option String → ApiMessage
  | assistantMessage : Option String → ApiMessage
deriving DecidableEq, Repr

/-- Body of the materialization loop, `app.py` lines 127-131: append a
`UserMessage` for role `user`, an `AssistantMessage` for role `assistant`,
nothing for any other role. -/
def apiStep (acc : List ApiMessage) (m : Msg) : List ApiMessage :=
  match m.role with
  | Role.user => acc ++ [ApiMessage.userMessage m.content]
  | Role.assistant => acc ++ [ApiMessage.assistantMessage m.content]
  | Role.system => acc

/-- `app.py` lines 126-131: materialize the API request from the whole session
by running the loop body over all messages in order. -/
def toApiMessages (msgs : List Msg) : List ApiMessage :=
  msgs.foldl apiStep []

/-- The fixed fallback literal committed by `deepseek_chatbot/app.py` on error
paths (lines 162, 164, 180, 183). -/
def fallbackMsg : String := "Error getting response from the model."

/-- The distinct literal returned by `deepseek_cli.py` line 111 when the
non-streaming response lacks the expected fields. -/
def noResponseMsg : String := "No response from the model."

/-- Non-streaming response message (`choices[0].message`): its `content`
attribute may be absent, `None`, or a string. -/
structure RespMessage where
  content : PyAttr String
deriving DecidableEq, Repr

/-- Non-streaming response choice (`choices[0]`): its `message` attribute. -/
structure RespChoice where
  message : PyAttr RespMessage
deriving DecidableEq, Repr

/-- Non-streaming completion response: its `choices` attribute (a Python list,
falsy when empty). -/
structure ChatResponse where
  choices : PyAttr (List RespChoice)
deriving DecidableEq, Repr

/-- `deepseek_chatbot/app.py` lines 170-184 (response known non-`None`): the
guard `hasattr choices ∧ choices ∧ hasattr message ∧ message ∧ hasattr content`
selects `choices[0].message.content` (which may be Python `None`, committed as
is); every failed guard yields the fixed fallback string. -/
def extractNonStreamApp (r : ChatResponse) : Option String :=
  match r.choices with
  | PyAttr.val (c :: _) =>
    match c.message with
    | PyAttr.val m =>
      match m.content with
      | PyAttr.absent => some fallbackMsg
      | PyAttr.pynone => none
      | PyAttr.val s => some s
    | _ => some fallbackMsg
  | _ => some fallbackMsg

/-- `deepseek_cli.py` lines 101-111: same guard, but a passing guard returns
`str(content)` (so Python `None` becomes the string "None") and a failing
guard returns the distinct literal "No response from the model.". -/
def extractNonStreamCliUtil (r : ChatResponse) : String :=
  match r.choices with
  | PyAttr.val (c :: _) =>
    match c.message with
    | PyAttr.val m =>
      match m.content with
      | PyAttr.absent => noResponseMsg
      | PyAttr.pynone => "None"
      | PyAttr.val s => s
    | _ => noResponseMsg
  | _ => noResponseMsg

/-- Streaming chunk delta (`choices[0].delta`): its `content` attribute. -/
structure StreamDelta where
  content : PyAttr String
deriving DecidableEq, Repr

/-- Streaming chunk choice: its `delta` attribute. -/
structure StreamChoice where
  delta : PyAttr StreamDelta
deriving DecidableEq, Repr

/-- Streaming response chunk: its `choices` attribute. -/
structure StreamChunk where
  choices : PyAttr (List StreamChoice)
deriving DecidableEq, Repr

/-- `deepseek_chatbot/app.py` lines 146-154: per-chunk extracted text.
`content` starts as `""`; when the guard (choices present and truthy, delta
present and not `None`, content attribute present) passes, it becomes
`chunk.choices[0].delta.content or ""`. -/
def chunkContentApp (c : StreamChunk) : String :=
  match c.choices with
  | PyAttr.val (ch :: _) =>
    match ch.delta with
    | PyAttr.val d =>
      match d.content with
      | PyAttr.absent => ""
      | PyAttr.pynone => ""
      | PyAttr.val s => s
    | _ => ""
  | _ => ""

/-- `deepseek_chatbot/cli.py` lines 47-57: the CLI loop only accumulates
inside the guard; `some s` means the guard passed and `s` is
`delta.content or ""`, `none` means the guard failed and nothing is added. -/
def chunkGuardCli (c : StreamChunk) : Option String :=
  match c.choices with
  | PyAttr.val (ch :: _) =>
    match ch.delta with
    | PyAttr.val d =>
      match d.content with
      | PyAttr.absent => none
      | PyAttr.pynone => some ""
      | PyAttr.val s => some s
    | _ => none
  | _ => none

/-- Loop body of `deepseek_chatbot/app.py` line 156:
`full_response += content`, where `content` was defaulted to `""`. -/
def appStep (acc : String) (c : StreamChunk) : String :=
  acc ++ chunkContentApp c

/-- Accumulation of `full_response` over the whole chunk sequence in
`deepseek_chatbot/app.py` lines 140-156. -/
def appAccum (cs : List StreamChunk) : String :=
  cs.foldl appStep ""

/-- Loop body of `deepseek_chatbot/cli.py` lines 47-57:
`full_response += content` runs only when the guard passes. -/
def cliStep (acc : String) (c : StreamChunk) : String :=
  match chunkGuardCli c with
  | some s => acc ++ s
  | none => acc

/-- Accumulation of `full_response` over the whole chunk sequence in
`deepseek_chatbot/cli.py` lines 44-57. -/
def cliAccum (cs : List StreamChunk) : String :=
  cs.foldl cliStep ""

/-- Observable behaviour of `chatbot.get_response(..., stream=False)`.
`core.get_response` has no try/except (core.py lines 44-71 merely forward to
`client.complete`), so the remote call may raise out of it; the app also
checks for a `None` return. -/
inductive NonStreamCall where
  | raises : NonStreamCall
  | retNone : NonStreamCall
  | ret : ChatResponse → NonStreamCall
deriving DecidableEq, Repr

/-- Observable behaviour of `chatbot.get_response(..., stream=True)`: raise at
call time, return `None`, or yield the chunk list `cs`; `iterRaises` records
whether iteration raises after yielding `cs`. -/
inductive StreamCall where
  | raises : StreamCall
  | retNone : StreamCall
  | chunks : List StreamChunk → Bool → StreamCall
deriving DecidableEq, Repr

/-- One submit either runs in streaming mode (checkbox on) or blocking mode. -/
inductive CallBehavior where
  | streaming : StreamCall → CallBehavior
  | blocking : NonStreamCall → CallBehavior
deriving DecidableEq, Repr

/-- `deepseek_chatbot/app.py` lines 138-165, streaming arm: the value of
`final_response`, or `none` when the exception escapes `main` (a raise at
`get_response` call time is outside the try, lines 141-143). -/
def streamFinal (sc : StreamCall) : Option (Option String) :=
  match sc with
  | StreamCall.raises => none
  | StreamCall.retNone => some (some fallbackMsg)
  | StreamCall.chunks cs iterRaises =>
    if iterRaises then some (some fallbackMsg) else some (some (appAccum cs))

/-- `deepseek_chatbot/app.py` lines 166-184, blocking arm: the value of
`final_response`, or `none` when a raise at `get_response` call time escapes
`main` (there is no try/except around line 168). -/
def nonStreamFinal (nc : NonStreamCall) : Option (Option String) :=
  match nc with
  | NonStreamCall.raises => none
  | NonStreamCall.retNone => some (some fallbackMsg)
  | NonStreamCall.ret r => some (extractNonStreamApp r)

/-- Result of one chat submission against the graphical session. -/
structure SubmitResult where
  messages : List Msg
  sentRequest : Option (List ApiMessage)
  uncaught : Bool
deriving DecidableEq, Repr

/-- `deepseek_chatbot/app.py` lines 117-187, one chat submission: the guard is
Python truthiness of `user_input` (line 117), so only the empty string is a
no-op; then the user turn is appended (line 119), the request is materialized
from the whole updated session (lines 126-131), the configured call runs, and
`final_response` is appended as the assistant turn (line 187) — unless the
remote call raised at call time, in which case the exception escapes with only
the user turn committed. The dispatch on the configured mode is split out as
`behaviorFinal`. -/
def behaviorFinal (b : CallBehavior) : Option (Option String) :=
  match b with
  | CallBehavior.streaming sc => streamFinal sc
  | CallBehavior.blocking nc => nonStreamFinal nc

/-- One chat submission of `deepseek_chatbot/app.py` lines 117-187; see the
comment on `behaviorFinal` for the walk through the source. -/
def submit (session : List Msg) (userInput : String) (b : CallBehavior) :
    SubmitResult :=
  if userInput = "" then
    { messages := session, sentRequest := none, uncaught := false }
  else
    let session1 := session ++ [{ role := Role.user, content := some userInput }]
    let req := toApiMessages session1
    match behaviorFinal b with
    | none => { messages := session1, sentRequest := some req, uncaught := true }
    | some fr =>
      { messages := session1 ++ [{ role := Role.assistant, content := fr }]
        sentRequest := some req
        uncaught := false }

/-- `core.py` line 83: `os.environ.get GITHUB_TOKEN or os.environ.get
AZURE_KEY` — the first operand wins when truthy (set and non-empty), otherwise
the result is the second operand verbatim (possibly `None` or `""`). -/
def get_token_from_env (github azure : Option String) : Option String :=
  match github with
  | some s => if s = "" then azure else some s
  | none => azure

/-- Python truthiness test `if not token` used by the CLI callers
(`cli.py` line 32, `deepseek_cli.py` line 32) to take the no-credential path. -/
def pyFalsyOpt (t : Option String) : Bool :=
  match t with
  | none => true
  | some s => s = ""

/-- Intended role-preserving wire image of one session message; used to state
that request materialization is the order- and length-preserving map over the
whole session. -/
def msgToApi (m : Msg) : ApiMessage :=
  match m.role with
  | Role.user => ApiMessage.userMessage m.content
  | _ => ApiMessage.assistantMessage m.content

lemma apiStep_shift (acc : List ApiMessage) (m : Msg) :
    apiStep acc m = acc ++ apiStep [] m := by
  cases h : m.role <;> simp [apiStep, h]

lemma toApiMessages_foldl (l : List Msg) :
    ∀ acc : List ApiMessage, List.foldl apiStep acc l = acc ++ toApiMessages l := by
  induction l with
  | nil => intro acc; simp [toApiMessages]
  | cons x xs ih =>
    intro acc
    simp only [toApiMessages, List.foldl_cons]
    rw [apiStep_shift acc x, ih, ih (apiStep [] x), List.append_assoc]

lemma toApiMessages_cons (m : Msg) (l : List Msg) :
    toApiMessages (m :: l) = apiStep [] m ++ toApiMessages l := by
  simp only [toApiMessages, List.foldl_cons]
  exact toApiMessages_foldl l (apiStep [] m)

lemma toApiMessages_eq_map (l : List Msg) :
    (∀ m ∈ l, m.role ≠ Role.system) → toApiMessages l = l.map msgToApi := by
  induction l with
  | nil => intro h; rfl
  | cons m ms ih =>
    intro h
    have hm : m.role ≠ Role.system := h m (List.mem_cons_self m ms)
    have hms : ∀ x ∈ ms, x.role ≠ Role.system := fun x hx => h x (List.mem_cons_of_mem m hx)
    rw [toApiMessages_cons, ih hms, List.map_cons]
    cases hr : m.role with
    | user => simp [apiStep, msgToApi, hr]
    | assistant => simp [apiStep, msgToApi, hr]
    | system => exact absurd hr hm

lemma cliStep_eq (acc : String) (c : StreamChunk) :
    cliStep acc c = acc ++ chunkContentApp c := by
  rcases c with ⟨cs⟩
  cases cs with
  | absent => simp [cliStep, chunkGuardCli, chunkContentApp]
  | pynone => simp [cliStep, chunkGuardCli, chunkContentApp]
  | val l =>
    cases l with
    | nil => simp [cliStep, chunkGuardCli, chunkContentApp]
    | cons ch rest =>
      rcases ch with ⟨d⟩
      cases d with
      | absent => simp [cliStep, chunkGuardCli, chunkContentApp]
      | pynone => simp [cliStep, chunkGuardCli, chunkContentApp]
      | val dd =>
        rcases dd with ⟨co⟩
        cases co with
        | absent => simp [cliStep, chunkGuardCli, chunkContentApp]
        | pynone => simp [cliStep, chunkGuardCli, chunkContentApp]
        | val s => simp [cliStep, chunkGuardCli, chunkContentApp]

/-- `deepseek_cli.py` lines 66-91, streaming arm: the inner try yields the
accumulated text on a clean iteration; any raise while creating or iterating
the stream is caught there and the fixed fallback literal is returned
(line 91). -/
def cliUtilStreamResult (cs : List StreamChunk) (iterRaises : Bool) : String :=
  if iterRaises then fallbackMsg else cliAccum cs

/-- Mocked non-streaming response whose `choices[0].message.content` is
"Paris". -/
def parisResponse : ChatResponse :=
  { choices := PyAttr.val [{ message := PyAttr.val { content := PyAttr.val "Paris" } }] }

/-- Mocked streaming chunk whose `choices[0].delta.content` is `s`. -/
def mkChunk (s : String) : StreamChunk :=
  { choices := PyAttr.val [{ delta := PyAttr.val { content := PyAttr.val s } }] }

/-- Streaming chunk whose `choices[0].delta` is present but `None`: every
nested field below it is missing. -/
def degenerateChunk : StreamChunk :=
  { choices := PyAttr.val [{ delta := PyAttr.pynone }] }

/-- Claim C1, evaluated at the failing input: when the remote `complete` call
itself raises (a transport error at call time), `core.get_response` forwards
the exception and `deepseek_chatbot/app.py` has no handler around the call, so
the submit ends with only the user turn committed — the session grows by 1,
not 2, contradicting the turn-count invariant the code clearly intends (its
`response is not None` fallback branch is unreachable because `get_response`
raises instead of returning `None`). -/
theorem C1_turn_count_broken_by_call_time_raise :
    (submit [] "hi" (CallBehavior.blocking NonStreamCall.raises)).messages
      = [{ role := Role.user, content := some "hi" }]
    ∧ (submit [] "hi" (CallBehavior.blocking NonStreamCall.raises)).uncaught = true
    ∧ (submit [] "hi" (CallBehavior.streaming StreamCall.raises)).messages.length = 1
    ∧ (submit [] "hi" (CallBehavior.blocking NonStreamCall.retNone)).messages.length = 2 := by
  decide

/-- Claim C2, counterexample: the claim says every response handling path uses
the single literal "Error getting response from the model." for missing-field
and failure cases, including `deepseek_cli.py`; but `deepseek_cli.py`'s
non-streaming path returns the distinct literal "No response from the model."
on an empty `choices` list, and the graphical app commits a raw `None` (not
the fallback) when the `content` attribute is present but null. -/
theorem C2_cex_distinct_fallback_literals :
    extractNonStreamCliUtil { choices := PyAttr.val [] } = "No response from the model."
    ∧ extractNonStreamCliUtil { choices := PyAttr.val [] } ≠ fallbackMsg
    ∧ extractNonStreamApp
        { choices := PyAttr.val [{ message := PyAttr.val { content := PyAttr.pynone } }] }
      = none
    ∧ (none : Option String) ≠ some fallbackMsg := by
  decide

/-- Claim C2, amended: in the graphical app, a `None` response or a response
whose `choices`, `message`, or `content` attribute is missing (or whose
`choices` list is empty or whose `message` is null) yields the committed
fallback "Error getting response from the model.", and the post-hoc streaming
failure commits the same literal, with no uncaught exception in any of these
extraction paths; but a present `content` attribute holding null is committed
as null, and `deepseek_cli.py`'s non-streaming missing-field path returns the
distinct literal "No response from the model." (its streaming failure does
return the shared fallback literal). -/
theorem C2_amended_fallback_paths :
    ∀ (rest : List RespChoice) (cs : List StreamChunk) (r : ChatResponse) (ir : Bool),
      nonStreamFinal NonStreamCall.retNone = some (some fallbackMsg)
      ∧ extractNonStreamApp { choices := PyAttr.absent } = some fallbackMsg
      ∧ extractNonStreamApp { choices := PyAttr.pynone } = some fallbackMsg
      ∧ extractNonStreamApp { choices := PyAttr.val [] } = some fallbackMsg
      ∧ extractNonStreamApp
          { choices := PyAttr.val ({ message := PyAttr.absent } :: rest) }
        = some fallbackMsg
      ∧ extractNonStreamApp
          { choices := PyAttr.val ({ message := PyAttr.pynone } :: rest) }
        = some fallbackMsg
      ∧ extractNonStreamApp
          { choices := PyAttr.val
              ({ message := PyAttr.val { content := PyAttr.absent } } :: rest) }
        = some fallbackMsg
      ∧ extractNonStreamApp
          { choices := PyAttr.val
              ({ message := PyAttr.val { content := PyAttr.pynone } } :: rest) }
        = none
      ∧ streamFinal (StreamCall.chunks cs true) = some (some fallbackMsg)
      ∧ cliUtilStreamResult cs true = fallbackMsg
      ∧ extractNonStreamCliUtil { choices := PyAttr.val [] } = noResponseMsg
      ∧ (submit [] "q" (CallBehavior.blocking (NonStreamCall.ret r))).uncaught = false
      ∧ (submit [] "q" (CallBehavior.streaming (StreamCall.chunks cs ir))).uncaught = false := by
  intro rest cs r ir
  refine ⟨rfl, rfl, rfl, rfl, rfl, rfl, rfl, rfl, rfl, rfl, rfl, ?_, ?_⟩
  · cases hr : extractNonStreamApp r <;> simp [submit, behaviorFinal, nonStreamFinal, hr]
  · cases ir <;> simp [submit, behaviorFinal, streamFinal]

/-- Claim C3, counterexample: the blank-input guard is Python truthiness of
`user_input` (`if user_input:`, app.py line 117), which a whitespace-only
string passes, so submitting a single space creates a user and an assistant
turn — the session length changes, contradicting the claimed no-op. -/
theorem C3_cex_whitespace_submits :
    (submit [] " " (CallBehavior.blocking NonStreamCall.retNone)).messages
      = [{ role := Role.user, content := some " " },
         { role := Role.assistant, content := some fallbackMsg }]
    ∧ (submit [] " " (CallBehavior.blocking NonStreamCall.retNone)).messages.length ≠ 0 := by
  decide

/-- Claim C3, amended: only the empty user string is a no-op — it creates no
turn, sends no request, and leaves the session exactly unchanged; a
whitespace-only string is treated like any other text. -/
theorem C3_amended_empty_input_noop :
    ∀ (s : List Msg) (b : CallBehavior),
      submit s "" b = { messages := s, sentRequest := none, uncaught := false } := by
  intro s b
  rfl

/-- Claim C4: when the streaming iteration raises after yielding any prefix of
fragments, the partially accumulated text is discarded and the assistant turn
committed to the session carries exactly the fixed fallback literal. -/
theorem C4_stream_midfailure_commits_fallback (s : List Msg) (t : String)
    (cs : List StreamChunk) (h : t ≠ "") :
    (submit s t (CallBehavior.streaming (StreamCall.chunks cs true))).messages
      = s ++ [{ role := Role.user, content := some t },
              { role := Role.assistant, content := some fallbackMsg }] := by
  simp [submit, behaviorFinal, streamFinal, h]

/-- Witness for claim C4 at a concrete input: a one-fragment stream that then
raises commits exactly the user turn and the fallback assistant turn. -/
theorem C4_stream_midfailure_commits_fallback_w :
    (submit [] "hi" (CallBehavior.streaming (StreamCall.chunks [mkChunk "Par"] true))).messages
      = [{ role := Role.user, content := some "hi" },
         { role := Role.assistant, content := some fallbackMsg }] :=
  C4_stream_midfailure_commits_fallback [] "hi" [mkChunk "Par"] (by decide)

/-- Claim C5: with a deterministic mock returning content "Paris" in blocking
mode and fragments "Par", "is" in streaming mode, both modes commit an
assistant turn whose content is exactly "Paris". -/
theorem C5_stream_nonstream_equivalent_paris :
    (submit [] "What is the capital of France?"
        (CallBehavior.blocking (NonStreamCall.ret parisResponse))).messages
      = [{ role := Role.user, content := some "What is the capital of France?" },
         { role := Role.assistant, content := some "Paris" }]
    ∧ (submit [] "What is the capital of France?"
        (CallBehavior.streaming
          (StreamCall.chunks [mkChunk "Par", mkChunk "is"] false))).messages
      = [{ role := Role.user, content := some "What is the capital of France?" },
         { role := Role.assistant, content := some "Paris" }] := by
  decide

/-- Claim C6: a streaming fragment lacking any nested field (`choices` absent,
null or empty, `delta` absent or null, `content` absent or null) extracts to
the empty text, contributes nothing to either accumulation loop, and is never
an error — a stream that iterates to completion is committed normally
whatever its fragments contain. -/
theorem C6_missing_fragment_fields_tolerated (c : StreamChunk)
    (h : c.choices = PyAttr.absent ∨ c.choices = PyAttr.pynone
      ∨ c.choices = PyAttr.val []
      ∨ ∃ ch rest, c.choices = PyAttr.val (ch :: rest)
          ∧ (ch.delta = PyAttr.absent ∨ ch.delta = PyAttr.pynone
             ∨ ∃ d, ch.delta = PyAttr.val d
                 ∧ (d.content = PyAttr.absent ∨ d.content = PyAttr.pynone))) :
    chunkContentApp c = ""
    ∧ (∀ pre post, appAccum (pre ++ c :: post) = appAccum (pre ++ post))
    ∧ (∀ pre post, cliAccum (pre ++ c :: post) = cliAccum (pre ++ post))
    ∧ (∀ cs, streamFinal (StreamCall.chunks cs false) = some (some (appAccum cs))) := by
  have hc : chunkContentApp c = "" := by
    rcases h with h | h | h | ⟨ch, rest, h1, h2⟩
    · simp [chunkContentApp, h]
    · simp [chunkContentApp, h]
    · simp [chunkContentApp, h]
    · rcases h2 with h2 | h2 | ⟨d, hd, h3⟩
      · simp [chunkContentApp, h1, h2]
      · simp [chunkContentApp, h1, h2]
      · rcases h3 with h3 | h3 <;> simp [chunkContentApp, h1, hd, h3]
  have happ : ∀ acc, appStep acc c = acc := by
    intro acc
    simp [appStep, hc]
  have hcli : ∀ acc, cliStep acc c = acc := by
    intro acc
    rw [cliStep_eq, hc]
    simp
  refine ⟨hc, ?_, ?_, ?_⟩
  · intro pre post
    simp [appAccum, List.foldl_append, List.foldl_cons, happ]
  · intro pre post
    simp [cliAccum, List.foldl_append, List.foldl_cons, hcli]
  · intro cs
    rfl

/-- Witness for claim C6 at a concrete degenerate fragment (present but null
`delta`): it extracts to empty text and drops out of both accumulations. -/
theorem C6_missing_fragment_fields_tolerated_w :
    chunkContentApp degenerateChunk = ""
    ∧ (∀ pre post, appAccum (pre ++ degenerateChunk :: post) = appAccum (pre ++ post))
    ∧ (∀ pre post, cliAccum (pre ++ degenerateChunk :: post) = cliAccum (pre ++ post))
    ∧ (∀ cs, streamFinal (StreamCall.chunks cs false) = some (some (appAccum cs))) :=
  C6_missing_fragment_fields_tolerated degenerateChunk
    (Or.inr (Or.inr (Or.inr
      ⟨{ delta := PyAttr.pynone }, [], rfl, Or.inr (Or.inl rfl)⟩)))

/-- Claim C7: for every non-blank submit, the request handed to the completion
client is the role-preserving image of the entire session history including
the just-appended user turn — every user and assistant turn appears, none is
truncated or windowed out, and the request order equals insertion order. -/
theorem C7_full_context_request (s : List Msg) (t : String) (b : CallBehavior)
    (ht : t ≠ "") (hs : ∀ m ∈ s, m.role ≠ Role.system) :
    (submit s t b).sentRequest
      = some ((s ++ [({ role := Role.user, content := some t } : Msg)]).map msgToApi) := by
  have hs1 : ∀ m ∈ s ++ [({ role := Role.user, content := some t } : Msg)],
      m.role ≠ Role.system := by
    intro m hm
    rcases List.mem_append.mp hm with hm | hm
    · exact hs m hm
    · rw [List.mem_singleton] at hm
      subst hm
      simp
  have hreq : toApiMessages (s ++ [({ role := Role.user, content := some t } : Msg)])
      = (s ++ [({ role := Role.user, content := some t } : Msg)]).map msgToApi :=
    toApiMessages_eq_map _ hs1
  cases hb : behaviorFinal b <;> simp [submit, ht, hb, hreq]

/-- Witness for claim C7 at a concrete input: a two-turn history plus the new
user turn is sent whole and in order. -/
theorem C7_full_context_request_w :
    (submit
        [{ role := Role.user, content := some "a" },
         { role := Role.assistant, content := some "b" }]
        "c" (CallBehavior.blocking NonStreamCall.retNone)).sentRequest
      = some ((([{ role := Role.user, content := some "a" },
                 { role := Role.assistant, content := some "b" }] : List Msg)
          ++ [({ role := Role.user, content := some "c" } : Msg)]).map msgToApi) :=
  C7_full_context_request
    [{ role := Role.user, content := some "a" },
     { role := Role.assistant, content := some "b" }]
    "c" (CallBehavior.blocking NonStreamCall.retNone) (by decide) (by decide)

/-- Claim C8: credential resolution checks GITHUB_TOKEN first and AZURE_KEY
second and the first non-empty value wins — with both set non-empty the
GITHUB_TOKEN value is returned, with GITHUB_TOKEN empty the AZURE_KEY value is
returned, and with neither set the result is no credential, which the CLI
callers' falsiness test recognises as the no-credential path. -/
theorem C8_token_precedence (g a : String) (hg : g ≠ "") :
    get_token_from_env (some g) (some a) = some g
    ∧ get_token_from_env (some "") (some a) = some a
    ∧ get_token_from_env none none = none
    ∧ pyFalsyOpt (get_token_from_env none none) = true := by
  refine ⟨?_, rfl, rfl, rfl⟩
  simp [get_token_from_env, hg]

/-- Witness for claim C8 at concrete environment values. -/
theorem C8_token_precedence_w :
    get_token_from_env (some "tok") (some "key") = some "tok"
    ∧ get_token_from_env (some "") (some "key") = some "key"
    ∧ get_token_from_env none none = none
    ∧ pyFalsyOpt (get_token_from_env none none) = true :=
  C8_token_precedence "tok" "key" (by decide)

/-- Claim C9: on any fragment sequence that iterates to completion, the CLI
streaming loop (accumulating inside the field-presence guard) and the
graphical streaming loop (accumulating a defaulted empty string outside the
guard) produce the same final accumulated string. -/
theorem C9_cli_app_stream_assembly_equiv :
    ∀ cs : List StreamChunk, cliAccum cs = appAccum cs := by
  have key : ∀ (cs : List StreamChunk) (acc : String),
      List.foldl cliStep acc cs = List.foldl appStep acc cs := by
    intro cs
    induction cs with
    | nil => intro acc; rfl
    | cons c rest ih =>
      intro acc
      simp only [List.foldl_cons]
      rw [cliStep_eq]
      exact ih (acc ++ chunkContentApp c)
  intro cs
  exact key cs ""

/-- Claim C10: `get_token_from_env` yields `None` exactly when GITHUB_TOKEN is
unset or empty and AZURE_KEY is unset; with both variables set to the empty
string it yields the empty string, not `None`. -/
theorem C10_token_none_iff :
    (∀ g a : Option String,
      get_token_from_env g a = none ↔ ((g = none ∨ g = some "") ∧ a = none))
    ∧ get_token_from_env (some "") (some "") = some "" := by
  constructor
  · intro g a
    cases g with
    | none => simp [get_token_from_env]
    | some s =>
      by_cases hs : s = ""
      · subst hs
        simp [get_token_from_env]
      · simp [get_token_from_env, hs]
  · rfl
